import Mathlib

/-!
Verification of the MediCare Network single-page client (src/src/App.jsx).

The client has two views. The senior view fetches a Daily Status for one
patient, derives the next pending dose and posts confirmations; the
caregiver view fetches a Dashboard Snapshot and renders three read-only
panels. Both are embedded below as pure transition functions on explicit
view-state records. Asynchronous HTTP calls are modelled by a
`FetchOutcome` argument (success with the parsed body, a non-2xx
response, or a rejected request / failed JSON parse carrying the thrown
message), and every transition also returns the list of HTTP requests it
issued, so that frame properties about network traffic are statable.
JavaScript `new Date(s).valueOf()` used for sorting is modelled by an
arbitrary parameter `parseDate : String → Int`; `Array.prototype.sort`
(stable per ECMAScript) is modelled by `List.mergeSort`.
-/

namespace MediCare

/-- One element of `status.items` in the senior view: a dose of one
medication scheduled at one time, with status `pending`, `taken` or
`missed` (App.jsx lines 32, 48-49). -/
structure DoseItem where
  medication_id : String
  scheduled_time : String
  status : String
deriving DecidableEq

/-- The JSON body of `GET /api/senior/today`. The `items` field is
`Option`al because the client guards with `status?.items` (line 31), and
`taken` / `total_doses` are read with `?? 0` (line 79). -/
structure DailyStatus where
  taken : Option Nat
  total_doses : Option Nat
  items : Option (List DoseItem)
deriving DecidableEq

/-- Outcome of one `fetch` call as the client observes it: a 2xx
response with parsed body `data`; a non-2xx response (the `!res.ok`
branch); or a rejection of the fetch promise or of `res.json()`,
carrying the message of the thrown error. -/
inductive FetchOutcome (α : Type) where
  | success (data : α)
  | httpError
  | rejected (msg : String)
deriving DecidableEq

/-- One HTTP request issued by the client, identified by endpoint and
the query/body parameters the client supplies. -/
inductive Request where
  | getToday (user_id : String)
  | postConfirm (user_id medication_id scheduled_time_iso : String)
  | getDashboard (patient_id : String)
deriving DecidableEq

/-- Recognizer for confirmation POSTs in a request trace. -/
def Request.isConfirm : Request → Bool
  | .postConfirm _ _ _ => true
  | _ => false

/-- Recognizer for today-status GETs in a request trace. -/
def Request.isGetToday : Request → Bool
  | .getToday _ => true
  | _ => false

/-- The senior view state: `useState` hooks of `SeniorView`
(App.jsx lines 6-9). -/
structure SeniorState where
  userId : String
  status : Option DailyStatus
  loading : Bool
  error : String
deriving DecidableEq

/-- Model of `pending.sort((a,b) => new Date(a.scheduled_time) - new
Date(b.scheduled_time))` (line 35): a stable sort by the parsed time
key, as ECMAScript specifies for `Array.prototype.sort`. -/
def jsStableSort (key : DoseItem → Int) (l : List DoseItem) : List DoseItem :=
  l.mergeSort (fun a b => decide (key a ≤ key b))

/-- The `nextPending` memo (lines 30-36): `null` when the snapshot or
its `items` field is absent; otherwise the head of the non-`taken`
items sorted by scheduled time, or `null` when none remain. -/
def nextPending (parseDate : String → Int) (status : Option DailyStatus) :
    Option DoseItem :=
  match status with
  | none => none
  | some st =>
    match st.items with
    | none => none
    | some items =>
      let pending := items.filter (fun i => i.status != "taken")
      if pending.length = 0 then none
      else (jsStableSort (fun i => parseDate i.scheduled_time) pending).head?

/-- The `disabled={!nextPending}` attribute of the Confirm button
(line 83). -/
def confirmDisabled (parseDate : String → Int) (s : SeniorState) : Bool :=
  (nextPending parseDate s.status).isNone

/-- `fetchStatus` (lines 13-26): sets loading and clears the error,
issues `GET /api/senior/today?user_id=...`; on 2xx stores the parsed
body wholesale, on `!res.ok` sets the error to the thrown message
`Failed to fetch status`, on rejection sets the error to the rejection
message; `finally` clears loading. -/
def fetchStatus (s : SeniorState) (out : FetchOutcome DailyStatus) :
    SeniorState × List Request :=
  let s1 : SeniorState := { s with loading := true, error := "" }
  let reqs := [Request.getToday s.userId]
  match out with
  | .success data => ({ s1 with status := some data, loading := false }, reqs)
  | .httpError => ({ s1 with error := "Failed to fetch status", loading := false }, reqs)
  | .rejected msg => ({ s1 with error := msg, loading := false }, reqs)

/-- `handleConfirm` (lines 38-59): returns at once when `nextPending`
is null; otherwise posts `{user_id, medication_id, scheduled_time_iso}`
to `/api/senior/confirm`; on 2xx awaits a full `fetchStatus` (whose own
try/catch never throws into this handler), on `!res.ok` sets the error
to `Failed to confirm dose`, on rejection sets the error to the
rejection message; `finally` clears loading. -/
def handleConfirm (parseDate : String → Int) (s : SeniorState)
    (confirmOut : FetchOutcome Unit) (reloadOut : FetchOutcome DailyStatus) :
    SeniorState × List Request :=
  match nextPending parseDate s.status with
  | none => (s, [])
  | some item =>
    let s1 : SeniorState := { s with loading := true, error := "" }
    let req := Request.postConfirm s.userId item.medication_id item.scheduled_time
    match confirmOut with
    | .success _ =>
      let r := fetchStatus s1 reloadOut
      ({ r.1 with loading := false }, req :: r.2)
    | .httpError =>
      ({ s1 with error := "Failed to confirm dose", loading := false }, [req])
    | .rejected msg =>
      ({ s1 with error := msg, loading := false }, [req])

/-- One row of `data.history` or `data.missed` in the caregiver
dashboard (lines 147-157, 165-169); `scheduled_time` is nullable
(rendered as a dash when absent). -/
structure HistoryEntry where
  id : String
  medication_id : String
  scheduled_time : Option String
  status : String
deriving DecidableEq

/-- One row of `data.inventory_alerts` (lines 178-186). -/
structure InventoryAlert where
  medication_id : String
  name : String
  inventory_count : Int
  low_threshold : Int
deriving DecidableEq

/-- The JSON body of `GET /api/caregiver/dashboard`. -/
structure Dashboard where
  history : List HistoryEntry
  missed : List HistoryEntry
  inventory_alerts : List InventoryAlert
deriving DecidableEq

/-- The caregiver view state: `useState` hooks of `CaregiverView`
(lines 104-107). -/
structure CaregiverState where
  patientId : String
  data : Option Dashboard
  loading : Bool
  error : String
deriving DecidableEq

/-- `fetchData` (lines 109-122): sets loading and clears the error,
issues `GET /api/caregiver/dashboard?patient_id=...`; on 2xx stores the
parsed body wholesale, on `!res.ok` sets the error to the thrown
message `Failed to load dashboard`, on rejection sets the error to the
rejection message; `finally` clears loading. -/
def fetchData (s : CaregiverState) (out : FetchOutcome Dashboard) :
    CaregiverState × List Request :=
  let s1 : CaregiverState := { s with loading := true, error := "" }
  let reqs := [Request.getDashboard s.patientId]
  match out with
  | .success json => ({ s1 with data := some json, loading := false }, reqs)
  | .httpError => ({ s1 with error := "Failed to load dashboard", loading := false }, reqs)
  | .rejected msg => ({ s1 with error := msg, loading := false }, reqs)

/-- One rendered line of a dashboard panel: either an empty-state text
paragraph, or a data row identified by its React `key`. -/
inductive RenderedLine where
  | emptyText (msg : String)
  | row (key : String)
deriving DecidableEq

/-- The Medication History panel body (lines 147-157): a bare
`data.history.map(...)` with no empty-state branch. -/
def renderHistoryPanel (history : List HistoryEntry) : List RenderedLine :=
  history.map (fun h => RenderedLine.row h.id)

/-- The Missed Doses panel body (lines 164-170): an empty-state
paragraph when `data.missed.length === 0`, followed by
`data.missed.map(...)`. -/
def renderMissedPanel (missed : List HistoryEntry) : List RenderedLine :=
  (if missed.length = 0
    then [RenderedLine.emptyText "No missed doses in the last week."] else [])
    ++ missed.map (fun m => RenderedLine.row m.id)

/-- The Inventory Alerts panel body (lines 177-186): an empty-state
paragraph when `data.inventory_alerts.length === 0`, followed by
`data.inventory_alerts.map(...)`. -/
def renderInventoryPanel (alerts : List InventoryAlert) : List RenderedLine :=
  (if alerts.length = 0
    then [RenderedLine.emptyText "All inventories look good."] else [])
    ++ alerts.map (fun a => RenderedLine.row a.medication_id)

/-- The head of the stable sort of a nonempty list is an element of the
list whose key is minimal. -/
theorem jsStableSort_head_min (key : DoseItem → Int) (l : List DoseItem)
    (hl : l ≠ []) :
    ∃ r, (jsStableSort key l).head? = some r ∧ r ∈ l ∧
      ∀ x ∈ l, key r ≤ key x := by
  have htrans : ∀ a b c : DoseItem, decide (key a ≤ key b) = true →
      decide (key b ≤ key c) = true → decide (key a ≤ key c) = true := by
    intro a b c hab hbc
    simp only [decide_eq_true_eq] at hab hbc ⊢
    exact le_trans hab hbc
  have htotal : ∀ a b : DoseItem,
      (decide (key a ≤ key b) || decide (key b ≤ key a)) = true := by
    intro a b
    simp [le_total]
  have hperm := List.mergeSort_perm l (fun a b => decide (key a ≤ key b))
  have hpw := List.sorted_mergeSort htrans htotal l
  cases hs : l.mergeSort (fun a b => decide (key a ≤ key b)) with
  | nil =>
    rw [hs] at hperm
    exact absurd hperm.symm.eq_nil hl
  | cons r rest =>
    refine ⟨r, by simp [jsStableSort, hs], ?_, ?_⟩
    · have hmem : r ∈ l.mergeSort (fun a b => decide (key a ≤ key b)) := by
        rw [hs]; exact List.mem_cons_self r rest
      exact hperm.mem_iff.mp hmem
    · intro x hx
      have hx2 : x ∈ l.mergeSort (fun a b => decide (key a ≤ key b)) :=
        hperm.mem_iff.mpr hx
      rw [hs] at hx2 hpw
      rcases List.mem_cons.mp hx2 with h | h
      · simp [h]
      · have := (List.pairwise_cons.mp hpw).1 x h
        simpa using this

/-- C1: deriving the next pending dose filters the items to those whose
status is not taken; when that set is empty the result is none, and
otherwise the result is a non-taken item of minimum scheduled time. -/
theorem nextPending_spec (parseDate : String → Int) (st : DailyStatus)
    (items : List DoseItem) (hitems : st.items = some items) :
    (items.filter (fun i => i.status != "taken") = [] →
      nextPending parseDate (some st) = none) ∧
    (items.filter (fun i => i.status != "taken") ≠ [] →
      ∃ r, nextPending parseDate (some st) = some r ∧
        r ∈ items.filter (fun i => i.status != "taken") ∧
        ∀ x ∈ items.filter (fun i => i.status != "taken"),
          parseDate r.scheduled_time ≤ parseDate x.scheduled_time) := by
  constructor
  · intro hempty
    simp [nextPending, hitems, hempty]
  · intro hne
    obtain ⟨r, hhead, hmem, hmin⟩ :=
      jsStableSort_head_min (fun i => parseDate i.scheduled_time)
        (items.filter (fun i => i.status != "taken")) hne
    refine ⟨r, ?_, hmem, hmin⟩
    have hlen : (items.filter (fun i => i.status != "taken")).length ≠ 0 :=
      fun h => hne (List.length_eq_zero.mp h)
    simp [nextPending, hitems, hlen, hhead]

/-- Concrete date parser for test scenarios, mapping the three ISO
strings of the example in the spec to their hour numbers. -/
def demoParse : String → Int := fun s =>
  if s = "2024-01-01T08:00:00Z" then 8
  else if s = "2024-01-01T12:00:00Z" then 12
  else 20

/-- The example item collection from the spec: A taken at 08:00,
B pending at 20:00, C pending at 12:00. -/
def demoItems : List DoseItem :=
  [⟨"A", "2024-01-01T08:00:00Z", "taken"⟩,
   ⟨"B", "2024-01-01T20:00:00Z", "pending"⟩,
   ⟨"C", "2024-01-01T12:00:00Z", "pending"⟩]

/-- The example Daily Status from the spec: taken 1 of 3. -/
def demoStatus : DailyStatus := ⟨some 1, some 3, some demoItems⟩

/-- A senior view state holding the example Daily Status. -/
def demoSenior : SeniorState := ⟨"demo-patient", some demoStatus, false, ""⟩

/-- A senior view state before any successful fetch. -/
def demoSeniorEmpty : SeniorState := ⟨"demo-patient", none, false, ""⟩

/-- A caregiver view state before any successful fetch. -/
def demoCaregiver : CaregiverState := ⟨"demo-patient", none, false, ""⟩

/-- Witness for C1 at the example status of the spec: at least one
non-taken item exists, and the derivation returns a pending item of
minimal scheduled time. -/
theorem nextPending_spec_witness :
    ∃ r, nextPending demoParse (some demoStatus) = some r ∧
      r ∈ demoItems.filter (fun i => i.status != "taken") ∧
      ∀ x ∈ demoItems.filter (fun i => i.status != "taken"),
        demoParse r.scheduled_time ≤ demoParse x.scheduled_time :=
  (nextPending_spec demoParse demoStatus demoItems rfl).2 (by decide)

/-- C2: whenever a next pending dose exists, Confirm posts exactly
the triple of the patient identifier, the medication identifier of that
dose, and its scheduled time, as user_id, medication_id and
scheduled_time_iso, to the confirmation endpoint, and no other
confirmation request appears in the trace. -/
theorem handleConfirm_posts_triple (parseDate : String → Int)
    (s : SeniorState) (confirmOut : FetchOutcome Unit)
    (reloadOut : FetchOutcome DailyStatus) (item : DoseItem)
    (h : nextPending parseDate s.status = some item) :
    ((handleConfirm parseDate s confirmOut reloadOut).2.head? =
      some (Request.postConfirm s.userId item.medication_id
        item.scheduled_time)) ∧
    ((handleConfirm parseDate s confirmOut reloadOut).2.filter
        Request.isConfirm =
      [Request.postConfirm s.userId item.medication_id
        item.scheduled_time]) := by
  cases confirmOut <;> cases reloadOut <;>
    simp [handleConfirm, h, fetchStatus, Request.isConfirm]

unseal List.merge List.mergeSort in
/-- Witness for C2 at the example status of the spec: the pending dose
is medication C at 12:00, and Confirm posts exactly that triple. -/
theorem handleConfirm_posts_triple_witness :
    ((handleConfirm demoParse demoSenior (.success ()) .httpError).2.head? =
      some (Request.postConfirm "demo-patient" "C"
        "2024-01-01T12:00:00Z")) ∧
    ((handleConfirm demoParse demoSenior (.success ()) .httpError).2.filter
        Request.isConfirm =
      [Request.postConfirm "demo-patient" "C" "2024-01-01T12:00:00Z"]) :=
  handleConfirm_posts_triple demoParse demoSenior (.success ()) .httpError
    ⟨"C", "2024-01-01T12:00:00Z", "pending"⟩ (by decide)

/-- C3: when no next pending dose exists, Confirm performs no network
call and returns the view state unchanged. -/
theorem handleConfirm_noop (parseDate : String → Int) (s : SeniorState)
    (confirmOut : FetchOutcome Unit) (reloadOut : FetchOutcome DailyStatus)
    (h : nextPending parseDate s.status = none) :
    handleConfirm parseDate s confirmOut reloadOut = (s, []) := by
  simp [handleConfirm, h]

/-- Witness for C3 at a status whose single item is already taken. -/
theorem handleConfirm_noop_witness :
    handleConfirm demoParse
      ⟨"demo-patient", some ⟨some 3, some 3,
        some [⟨"A", "2024-01-01T08:00:00Z", "taken"⟩]⟩, false, ""⟩
      (.success ()) .httpError =
    (⟨"demo-patient", some ⟨some 3, some 3,
        some [⟨"A", "2024-01-01T08:00:00Z", "taken"⟩]⟩, false, ""⟩, []) :=
  handleConfirm_noop demoParse _ _ _ (by decide)

/-- C4: when the confirmation POST succeeds, the request trace is
exactly the POST followed by one today-status GET, and the resulting
Daily Status is the pre-state status transformed only by that reload:
the reloaded snapshot when the reload succeeds, and the old snapshot
otherwise — no local mutation is applied. -/
theorem handleConfirm_success_reloads_once (parseDate : String → Int)
    (s : SeniorState) (reloadOut : FetchOutcome DailyStatus)
    (item : DoseItem) (h : nextPending parseDate s.status = some item) :
    ((handleConfirm parseDate s (.success ()) reloadOut).2 =
      [Request.postConfirm s.userId item.medication_id item.scheduled_time,
       Request.getToday s.userId]) ∧
    ((handleConfirm parseDate s (.success ()) reloadOut).1.status =
      match reloadOut with
      | .success d => some d
      | _ => s.status) := by
  cases reloadOut <;> simp [handleConfirm, h, fetchStatus]

unseal List.merge List.mergeSort in
/-- Witness for C4 at the example status of the spec, with a reload
returning a fresh snapshot. -/
theorem handleConfirm_success_reloads_once_witness :
    ((handleConfirm demoParse demoSenior (.success ())
        (.success ⟨some 2, some 3, some []⟩)).2 =
      [Request.postConfirm "demo-patient" "C" "2024-01-01T12:00:00Z",
       Request.getToday "demo-patient"]) ∧
    ((handleConfirm demoParse demoSenior (.success ())
        (.success ⟨some 2, some 3, some []⟩)).1.status =
      some ⟨some 2, some 3, some []⟩) :=
  handleConfirm_success_reloads_once demoParse demoSenior
    (.success ⟨some 2, some 3, some []⟩)
    ⟨"C", "2024-01-01T12:00:00Z", "pending"⟩ (by decide)

/-- C5: a failed status fetch, whether a non-2xx response or a rejected
request with its (non-empty) thrown message, leaves the previously
loaded Daily Status unchanged and sets a non-empty error message. -/
theorem fetchStatus_failure_preserves (s : SeniorState) (msg : String)
    (hmsg : msg ≠ "") :
    ((fetchStatus s .httpError).1.status = s.status ∧
      (fetchStatus s .httpError).1.error ≠ "") ∧
    ((fetchStatus s (.rejected msg)).1.status = s.status ∧
      (fetchStatus s (.rejected msg)).1.error ≠ "") := by
  refine ⟨⟨rfl, by simp [fetchStatus]⟩, rfl, ?_⟩
  simpa [fetchStatus] using hmsg

/-- Witness for C5 at the example state, with a concrete rejection
message. -/
theorem fetchStatus_failure_preserves_witness :
    ((fetchStatus demoSenior .httpError).1.status = demoSenior.status ∧
      (fetchStatus demoSenior .httpError).1.error ≠ "") ∧
    ((fetchStatus demoSenior (.rejected "Failed to fetch")).1.status =
        demoSenior.status ∧
      (fetchStatus demoSenior (.rejected "Failed to fetch")).1.error ≠ "") :=
  fetchStatus_failure_preserves demoSenior "Failed to fetch" (by decide)

/-- C6: a successful dashboard load replaces the whole snapshot — all
three panels — by the single fetched body and clears the error; a
failed load (non-2xx, or rejection with a non-empty message) sets a
non-empty error and retains the prior snapshot unchanged. -/
theorem fetchData_spec (s : CaregiverState) (d : Dashboard) (msg : String)
    (hmsg : msg ≠ "") :
    ((fetchData s (.success d)).1.data = some d ∧
      (fetchData s (.success d)).1.error = "") ∧
    ((fetchData s .httpError).1.data = s.data ∧
      (fetchData s .httpError).1.error ≠ "") ∧
    ((fetchData s (.rejected msg)).1.data = s.data ∧
      (fetchData s (.rejected msg)).1.error ≠ "") := by
  refine ⟨⟨rfl, rfl⟩, ⟨rfl, by simp [fetchData]⟩, rfl, ?_⟩
  simpa [fetchData] using hmsg

/-- Witness for C6 at a concrete caregiver state and snapshot. -/
theorem fetchData_spec_witness :
    ((fetchData demoCaregiver (.success ⟨[], [], []⟩)).1.data =
        some ⟨[], [], []⟩ ∧
      (fetchData demoCaregiver (.success ⟨[], [], []⟩)).1.error = "") ∧
    ((fetchData demoCaregiver .httpError).1.data = demoCaregiver.data ∧
      (fetchData demoCaregiver .httpError).1.error ≠ "") ∧
    ((fetchData demoCaregiver (.rejected "Failed to fetch")).1.data =
        demoCaregiver.data ∧
      (fetchData demoCaregiver (.rejected "Failed to fetch")).1.error ≠ "") :=
  fetchData_spec demoCaregiver ⟨[], [], []⟩ "Failed to fetch" (by decide)

/-- Counterexample to C7: the user-visible error message is not one and
the same across failure causes or views — a non-2xx status fetch shows
a different message than a rejected status fetch, and than a non-2xx
dashboard fetch. -/
theorem error_message_not_uniform :
    (fetchStatus demoSenior .httpError).1.error ≠
      (fetchStatus demoSenior (.rejected "Failed to fetch")).1.error ∧
    (fetchStatus demoSenior .httpError).1.error ≠
      (fetchData demoCaregiver .httpError).1.error := by
  decide

/-- C7 as amended: every failing HTTP call in either view is caught and
collapses into the per-view error display state — always a non-empty
message, never propagated past the transition — but the message text
depends on the endpoint and on the cause: a fixed per-endpoint string
for non-2xx responses, and the thrown message for rejections. -/
theorem error_collapsed_into_state (s : SeniorState) (cs : CaregiverState)
    (msg : String) (hmsg : msg ≠ "") :
    ((fetchStatus s .httpError).1.error = "Failed to fetch status" ∧
      (fetchStatus s (.rejected msg)).1.error = msg ∧
      (fetchStatus s .httpError).1.error ≠ "" ∧
      (fetchStatus s (.rejected msg)).1.error ≠ "") ∧
    ((fetchData cs .httpError).1.error = "Failed to load dashboard" ∧
      (fetchData cs (.rejected msg)).1.error = msg ∧
      (fetchData cs .httpError).1.error ≠ "" ∧
      (fetchData cs (.rejected msg)).1.error ≠ "") ∧
    (∀ parseDate item reloadOut,
      nextPending parseDate s.status = some item →
      (handleConfirm parseDate s .httpError reloadOut).1.error =
        "Failed to confirm dose" ∧
      (handleConfirm parseDate s (.rejected msg) reloadOut).1.error = msg) := by
  refine ⟨⟨rfl, rfl, by simp [fetchStatus], by simpa [fetchStatus] using hmsg⟩,
    ⟨rfl, rfl, by simp [fetchData], by simpa [fetchData] using hmsg⟩, ?_⟩
  intro parseDate item reloadOut h
  constructor <;> simp [handleConfirm, h]

/-- Witness for the amended C7 at concrete states and message. -/
theorem error_collapsed_into_state_witness :
    ((fetchStatus demoSenior .httpError).1.error = "Failed to fetch status" ∧
      (fetchStatus demoSenior (.rejected "Failed to fetch")).1.error =
        "Failed to fetch" ∧
      (fetchStatus demoSenior .httpError).1.error ≠ "" ∧
      (fetchStatus demoSenior (.rejected "Failed to fetch")).1.error ≠ "") ∧
    ((fetchData demoCaregiver .httpError).1.error =
        "Failed to load dashboard" ∧
      (fetchData demoCaregiver (.rejected "Failed to fetch")).1.error =
        "Failed to fetch" ∧
      (fetchData demoCaregiver .httpError).1.error ≠ "" ∧
      (fetchData demoCaregiver (.rejected "Failed to fetch")).1.error ≠ "") ∧
    (∀ parseDate item reloadOut,
      nextPending parseDate demoSenior.status = some item →
      (handleConfirm parseDate demoSenior .httpError reloadOut).1.error =
        "Failed to confirm dose" ∧
      (handleConfirm parseDate demoSenior
          (.rejected "Failed to fetch") reloadOut).1.error =
        "Failed to fetch") :=
  error_collapsed_into_state demoSenior demoCaregiver "Failed to fetch"
    (by decide)

/-- Counterexample to C8: the Medication History panel has no
empty-state text — with an empty history collection it renders the
empty list, not a documented empty-state paragraph. -/
theorem history_empty_state_counterexample : renderHistoryPanel [] = [] :=
  rfl

/-- C8 as amended: the Missed Doses and Inventory Alerts panels render
their documented empty-state text when their collections are empty,
while the Medication History panel renders an empty list with no
empty-state text. -/
theorem caregiver_empty_state (d : Dashboard) :
    (d.missed = [] → renderMissedPanel d.missed =
      [RenderedLine.emptyText "No missed doses in the last week."]) ∧
    (d.inventory_alerts = [] → renderInventoryPanel d.inventory_alerts =
      [RenderedLine.emptyText "All inventories look good."]) ∧
    (d.history = [] → renderHistoryPanel d.history = []) := by
  refine ⟨?_, ?_, ?_⟩ <;> intro h <;>
    simp [renderMissedPanel, renderInventoryPanel, renderHistoryPanel, h]

/-- Witness for the amended C8 at the all-empty snapshot. -/
theorem caregiver_empty_state_witness :
    renderMissedPanel (Dashboard.mk [] [] []).missed =
      [RenderedLine.emptyText "No missed doses in the last week."] ∧
    renderInventoryPanel (Dashboard.mk [] [] []).inventory_alerts =
      [RenderedLine.emptyText "All inventories look good."] :=
  ⟨(caregiver_empty_state ⟨[], [], []⟩).1 rfl,
   (caregiver_empty_state ⟨[], [], []⟩).2.1 rfl⟩

/-- The next pending dose, when it exists, is one of the non-taken
items of the snapshot itself. -/
theorem nextPending_mem (parseDate : String → Int) (st : DailyStatus)
    (items : List DoseItem) (r : DoseItem) (hitems : st.items = some items)
    (hr : nextPending parseDate (some st) = some r) :
    r ∈ items.filter (fun i => i.status != "taken") := by
  by_cases hlen : (items.filter (fun i => i.status != "taken")).length = 0
  · simp [nextPending, hitems, hlen] at hr
  · obtain ⟨r0, hhead, hmem, _⟩ :=
      jsStableSort_head_min (fun i => parseDate i.scheduled_time)
        (items.filter (fun i => i.status != "taken"))
        (fun h => hlen (by simp [h]))
    simp [nextPending, hitems, hlen, hhead] at hr
    exact hr ▸ hmem

/-- C9: fetched entities are never merged or edited — a successful
fetch replaces the whole snapshot by exactly the fetched body, a failed
fetch leaves the old snapshot untouched, and the next-pending-dose
derivation returns one of the original items of the snapshot it reads,
leaving the view state to which it is applied unchanged. -/
theorem no_in_place_mutation (parseDate : String → Int) (s : SeniorState)
    (d : DailyStatus) (cs : CaregiverState) (snap : Dashboard)
    (st : DailyStatus) (items : List DoseItem) (r : DoseItem)
    (hitems : st.items = some items)
    (hr : nextPending parseDate (some st) = some r) :
    (fetchStatus s (.success d)).1.status = some d ∧
    (fetchStatus s .httpError).1.status = s.status ∧
    (∀ m, (fetchStatus s (.rejected m)).1.status = s.status) ∧
    (fetchData cs (.success snap)).1.data = some snap ∧
    (fetchData cs .httpError).1.data = cs.data ∧
    (∀ m, (fetchData cs (.rejected m)).1.data = cs.data) ∧
    r ∈ items :=
  ⟨rfl, rfl, fun _ => rfl, rfl, rfl, fun _ => rfl,
   List.mem_of_mem_filter (nextPending_mem parseDate st items r hitems hr)⟩

unseal List.merge List.mergeSort in
/-- Witness for C9 at the example status of the spec. -/
theorem no_in_place_mutation_witness :
    (fetchStatus demoSenior
        (.success ⟨some 2, some 3, some []⟩)).1.status =
      some ⟨some 2, some 3, some []⟩ ∧
    (fetchStatus demoSenior .httpError).1.status = demoSenior.status ∧
    (∀ m, (fetchStatus demoSenior (.rejected m)).1.status =
      demoSenior.status) ∧
    (fetchData demoCaregiver (.success ⟨[], [], []⟩)).1.data =
      some ⟨[], [], []⟩ ∧
    (fetchData demoCaregiver .httpError).1.data = demoCaregiver.data ∧
    (∀ m, (fetchData demoCaregiver (.rejected m)).1.data =
      demoCaregiver.data) ∧
    (⟨"C", "2024-01-01T12:00:00Z", "pending"⟩ : DoseItem) ∈ demoItems :=
  no_in_place_mutation demoParse demoSenior ⟨some 2, some 3, some []⟩
    demoCaregiver ⟨[], [], []⟩ demoStatus demoItems
    ⟨"C", "2024-01-01T12:00:00Z", "pending"⟩ rfl (by decide)

/-- C10: when the status snapshot is absent, or present with a missing
items field, the next-pending-dose derivation returns none, the Confirm
button is disabled, and invoking Confirm performs no network call and
leaves the state unchanged. -/
theorem missing_items_safe (parseDate : String → Int) (s : SeniorState)
    (confirmOut : FetchOutcome Unit) (reloadOut : FetchOutcome DailyStatus)
    (h : s.status = none ∨ ∃ st, s.status = some st ∧ st.items = none) :
    nextPending parseDate s.status = none ∧
    confirmDisabled parseDate s = true ∧
    handleConfirm parseDate s confirmOut reloadOut = (s, []) := by
  have hn : nextPending parseDate s.status = none := by
    rcases h with h | ⟨st, hs, hi⟩
    · simp [h, nextPending]
    · simp [hs, nextPending, hi]
  exact ⟨hn, by simp [confirmDisabled, hn], by simp [handleConfirm, hn]⟩

/-- Witness for C10 at the pre-fetch state with no snapshot. -/
theorem missing_items_safe_witness :
    nextPending demoParse demoSeniorEmpty.status = none ∧
    confirmDisabled demoParse demoSeniorEmpty = true ∧
    handleConfirm demoParse demoSeniorEmpty (.success ()) .httpError =
      (demoSeniorEmpty, []) :=
  missing_items_safe demoParse demoSeniorEmpty (.success ()) .httpError
    (Or.inl rfl)

end MediCare
